import Mathlib

/-!
Verification development for the esm-vfc-api-demo service: a shallow embedding
of the nearest-neighbour query engine, the track/trajectory/point extraction
endpoints, the CoverageJSON builder and the coverage schema, together with
theorems about the behaviour of these operations.

Conventions of the embedding:
* floating-point coordinate and field values are modelled as rationals;
* numpy arrays are shape plus row-major flat data; `ravel` is the identity on
  the flat data;
* xarray datasets are the three coordinate axes of the published dataset
  (`lat`, `lon`, `time`) plus named data variables;
* Python exceptions become `Except` with one constructor per distinct
  failure (the spec's error taxonomy);
* timestamps (ISO strings / datetime64 in the source) are modelled as
  rationals, since only their order and nearest-lookup behaviour matter.
-/

namespace EsmVfc

/-- Pad indexer of `pandas.Index.get_indexer(..., method="pad")` on a
monotonically increasing coordinate axis (pandas requires monotonicity for
method-based lookup): the last index whose value is `≤ q`, or `none` when
every axis value exceeds `q`. -/
def padIdx : List ℚ → ℚ → Option Nat
  | [], _ => none
  | x :: xs, q => if x ≤ q then some ((padIdx xs q).elim 0 (· + 1)) else none

/-- Backfill indexer of `pandas.Index.get_indexer(..., method="backfill")` on a
monotonically increasing coordinate axis: the first index whose value is
`≥ q`, or `none` when every axis value is below `q`. -/
def bfillIdx : List ℚ → ℚ → Option Nat
  | [], _ => none
  | x :: xs, q => if q ≤ x then some 0 else (bfillIdx xs q).map (· + 1)

/-- Nearest indexer of `pandas.Index._get_nearest_indexer`, the engine behind
`dataset.sel(..., method="nearest")`: take the pad and backfill candidates and
keep the pad (left) one only when its distance is strictly smaller
(`op = operator.lt` for a monotonically increasing index), so equal distances
resolve to the backfill candidate; a missing candidate on one side falls back
to the other side. -/
def nearestIdx (xs : List ℚ) (q : ℚ) : Nat :=
  match padIdx xs q, bfillIdx xs q with
  | some l, some r => if |xs.getD l 0 - q| < |xs.getD r 0 - q| then l else r
  | some l, none => l
  | none, some r => r
  | none, none => 0

/-- Snapped coordinate: the axis value the nearest lookup actually selected. -/
def snap (xs : List ℚ) (q : ℚ) : ℚ := xs.getD (nearestIdx xs q) 0

/-- A named data variable of the xarray dataset: dimension names, shape, the
row-major flat data of the backing numpy array, and the attributes read by the
coverage builder (`long_name`, `var_desc`, `units`). -/
structure Variable where
  dims : List String
  shape : List Nat
  data : List ℚ
  long_name : String := ""
  var_desc : String := ""
  units : String := ""
  deriving DecidableEq, Inhabited

/-- The published xarray dataset: the three coordinate axes and the named data
variables. -/
structure Dataset where
  lat : List ℚ
  lon : List ℚ
  time : List ℚ
  data_vars : List (String × Variable)
  deriving DecidableEq, Inhabited

/-- Row-major element access for a rank-3 variable, numpy indexing
`v[t, i, j]` for a variable of shape `(n_time, n_lat, n_lon)`. -/
def Variable.at3 (v : Variable) (t i j : Nat) : ℚ :=
  v.data.getD ((t * v.shape.getD 1 0 + i) * v.shape.getD 2 0 + j) 0

/-- Row-major element access for a rank-2 variable, numpy indexing `v[i, j]`
for a variable of shape `(n_lat, n_lon)`. -/
def Variable.at2 (v : Variable) (i j : Nat) : ℚ :=
  v.data.getD (i * v.shape.getD 1 0 + j) 0

/-- Look a data variable up by name (`dataset[name]`). -/
def Dataset.findVar (ds : Dataset) (k : String) : Option Variable :=
  (ds.data_vars.find? fun kv => kv.1 = k).map Prod.snd

/-- The dimension names present in the dataset: the dims of the index
coordinates together with every dimension of a data variable
(`dataset.dims`). -/
def Dataset.dimsAll (ds : Dataset) : List String :=
  "lat" :: "lon" :: "time" :: (ds.data_vars.map fun kv => kv.2.dims).flatten

/-- The distinct request-terminating failures of the service, one constructor
per distinct failure surfaced at the boundary (the spec's error taxonomy; in
the source they are a `ValueError` for an unsupported geometry, the xarray
`ValueError` for a missing reduction dimension, and `KeyError` for a missing
field or an unmapped dimension name). -/
inductive AppError
  | unsupportedGeometry
  | dimensionNotFound
  | fieldNotFound
  | unknownAxisName
  deriving DecidableEq, Inhabited

/-- Mean over axis `p` of a row-major array: for every remaining multi-index,
average the `shape[p]` entries along the reduced axis (numpy mean over one
axis of an array viewed as `pre × n × post`). -/
def meanAxis (shape : List Nat) (data : List ℚ) (p : Nat) : List ℚ :=
  let n := shape.getD p 1
  let post := (shape.drop (p + 1)).prod
  let pre := (shape.take p).prod
  (List.range (pre * post)).map fun o =>
    (((List.range n).map fun k =>
      data.getD ((o / post * n + k) * post + o % post) 0).sum) / (n : ℚ)

/-- `variable.mean(dim)` of xarray: a variable that carries the dimension
loses it (dims, shape and data reduced along that axis); a variable that does
not depend on the dimension passes through unchanged. -/
def Variable.meanDim (v : Variable) (d : String) : Variable :=
  match v.dims.findIdx? (· = d) with
  | none => v
  | some p =>
    { v with dims := v.dims.eraseIdx p, shape := v.shape.eraseIdx p,
             data := meanAxis v.shape v.data p }

/-- `variable.mean()` with no dimension: reduce over all axes to a scalar. -/
def Variable.meanAll (v : Variable) : Variable :=
  { v with dims := [], shape := [],
           data := [v.data.sum / (v.data.length : ℚ)] }

/-- `dataset.mean(dim=...)` of xarray: with a named dimension, every data
variable depending on it is averaged along it and the reduced dimension's
index coordinate is dropped (encoded by emptying that coordinate list); a
dimension absent from the dataset raises (xarray's `ValueError`, the
`DimensionNotFound` failure of the spec's taxonomy).  `dim = none` averages
every variable over all of its dimensions. -/
def Dataset.mean (ds : Dataset) (dim : Option String) : Except AppError Dataset :=
  match dim with
  | none =>
    .ok { lat := [], lon := [], time := [],
          data_vars := ds.data_vars.map fun kv => (kv.1, kv.2.meanAll) }
  | some d =>
    if d ∈ ds.dimsAll then
      .ok { lat := if d = "lat" then [] else ds.lat,
            lon := if d = "lon" then [] else ds.lon,
            time := if d = "time" then [] else ds.time,
            data_vars := ds.data_vars.map fun kv => (kv.1, kv.2.meanDim d) }
    else .error .dimensionNotFound

/-- Normalisation of a Python `slice(a, b)` (step 1) over an axis of length
`n`: negative endpoints count from the end, then both are clamped to
`[0, n]`. -/
def pySliceIdx (n : Nat) (a b : Int) : Nat × Nat :=
  ((max 0 (min (n : Int) (if a < 0 then a + n else a))).toNat,
   (max 0 (min (n : Int) (if b < 0 then b + n else b))).toNat)

/-- `dataset.isel(time=slice(a, b))`: slices the time coordinate and, for
every data variable, its leading axis (every variable of the published
dataset carries `time` as its first dimension).  The `fillna` applied right
after it in the grid endpoint is the identity in this rational-valued model
(missing values are kept in place, never dropped). -/
def Dataset.iselTime (ds : Dataset) (a b : Int) : Dataset :=
  let se := pySliceIdx ds.time.length a b
  { ds with
    time := (ds.time.drop se.1).take (se.2 - se.1),
    data_vars := ds.data_vars.map fun kv =>
      let v := kv.2
      let block := (v.shape.drop 1).prod
      (kv.1, { v with shape := (se.2 - se.1) :: v.shape.drop 1,
                      data := (v.data.drop (se.1 * block)).take
                        ((se.2 - se.1) * block) }) }

/-- Vectorised `sel` of a rank-3 `(time, lat, lon)` variable with three index
lists sharing one new dimension (`dataset.sel(lat=da_lat, lon=da_lon,
time=da_time, method="nearest")` after nearest lookup has produced the
integer indexers): the variable becomes rank 1 over the shared dimension,
sampled pointwise. -/
def Variable.selPointwise3 (v : Variable) (dimName : String)
    (tIdx latIdx lonIdx : List Nat) : Variable :=
  let n := latIdx.length
  { v with dims := [dimName], shape := [n],
           data := (List.range n).map fun k =>
             v.at3 (tIdx.getD k 0) (latIdx.getD k 0) (lonIdx.getD k 0) }

/-- Vectorised `sel` of a rank-2 `(lat, lon)` variable with two index lists
sharing one new dimension: the variable becomes rank 1 over the shared
dimension, sampled pointwise. -/
def Variable.selPointwise2 (v : Variable) (dimName : String)
    (latIdx lonIdx : List Nat) : Variable :=
  let n := latIdx.length
  { v with dims := [dimName], shape := [n],
           data := (List.range n).map fun k =>
             v.at2 (latIdx.getD k 0) (lonIdx.getD k 0) }

/-- Scalar `sel` of a rank-3 `(time, lat, lon)` variable at fixed lat/lon
indices: the spatial dimensions are dropped and the variable becomes a time
series. -/
def Variable.selPointLatLon (v : Variable) (i j : Nat) : Variable :=
  { v with dims := ["time"], shape := [v.shape.getD 0 0],
           data := (List.range (v.shape.getD 0 0)).map fun t => v.at3 t i j }

/-- GeoJSON geometry of a track feature (utils.py): either a single-path
`LineString` of coordinate pairs or an unsupported `MultiLineString` of
several paths. -/
inductive Geometry
  | lineString (coordinates : List (ℚ × ℚ))
  | multiLineString (coordinates : List (List (ℚ × ℚ)))
  deriving DecidableEq, Inhabited

/-- One GeoJSON track feature (the `Track` model of utils.py); `properties`
carries the per-field extracted value lists on output tracks. -/
structure Track where
  geometry : Geometry
  id : Option String := none
  properties : List (String × List ℚ) := []
  deriving DecidableEq, Inhabited

/-- A GeoJSON feature collection of tracks (the `TrackCollection` model). -/
structure TrackCollection where
  features : List Track
  deriving DecidableEq, Inhabited

/-- One iteration of the feature loop in `extract_data_along_tracks`
(utils.py).  A `MultiLineString` geometry raises immediately
(`ValueError("MultiLineString not yet supported")`).  Otherwise
`zip(*feature.geometry.coordinates)` splits the coordinate pairs into
`points_lat` — the list of first components — and `points_lon` — the list of
second components; both are resolved against the grid with
`method="nearest"`; the model track carries the snapped `(lat, lon)` pairs as
its geometry (`zip(ds_extract.lat, ds_extract.lon)`), the input feature's id,
and one flat extracted-value list per requested field (a missing field name
raises `KeyError`).  Data variables are taken on the `(lat, lon)` grid, the
layout reaching this function in the application after the optional time
aggregation; further dimensions would ride along unchanged and are
irrelevant to the properties proved below. -/
def extractTrack (ds : Dataset) (fieldnames : List String) (tr : Track) :
    Except AppError Track :=
  match tr.geometry with
  | .multiLineString _ => .error .unsupportedGeometry
  | .lineString coords =>
    let points_lat := coords.map Prod.fst
    let points_lon := coords.map Prod.snd
    let latIdx := points_lat.map fun q => nearestIdx ds.lat q
    let lonIdx := points_lon.map fun q => nearestIdx ds.lon q
    let newLat := latIdx.map fun i => ds.lat.getD i 0
    let newLon := lonIdx.map fun i => ds.lon.getD i 0
    do
      let props ← fieldnames.mapM fun fn =>
        match ds.findVar fn with
        | none => Except.error AppError.fieldNotFound
        | some v => Except.ok (fn, (List.range coords.length).map fun k =>
            v.at2 (latIdx.getD k 0) (lonIdx.getD k 0))
      .ok { geometry := .lineString (newLat.zip newLon), id := tr.id,
            properties := props }

/-- `extract_data_along_tracks` (utils.py): process the features in order,
propagating the first failure; on success wrap the model tracks into a new
feature collection. -/
def extract_data_along_tracks (ds : Dataset) (fieldnames : List String)
    (tracks : TrackCollection) : Except AppError TrackCollection := do
  let fs ← tracks.features.mapM (extractTrack ds fieldnames)
  .ok { features := fs }

/-- The optional dataset transform of the extract-tracks endpoint
(`DatasetTransform` in utils.py). -/
structure DatasetTransform where
  aggregation : Option String := none
  dim : Option String := none
  deriving DecidableEq, Inhabited

/-- The `POST /esm/extract_tracks` endpoint (main.py): default the field list
to all data variables, apply the mean aggregation when requested, then
extract along the tracks. -/
def extract_tracks (transform : DatasetTransform) (tracks : TrackCollection)
    (fieldnames : Option (List String)) (ds : Dataset) :
    Except AppError TrackCollection := do
  let fns := fieldnames.getD (ds.data_vars.map Prod.fst)
  let ds' ← if transform.aggregation = some "mean" then ds.mean transform.dim
            else .ok ds
  extract_data_along_tracks ds' fns tracks

/-- A CoverageJSON axis value: either a primitive value or a composite-axis
tuple (pydantic_covjson.py `AxisValuesType`). -/
inductive AxisVal
  | prim (v : ℚ)
  | tup (vs : List ℚ)
  deriving DecidableEq, Inhabited

/-- A CoverageJSON domain axis (the `Axis` model): optional explicit values,
optional bounds, optional start/stop/num alternative, and the coordinate
roles of a composite axis. -/
structure Axis where
  values : Option (List AxisVal) := none
  bounds : Option (List ℚ) := none
  start : Option ℚ := none
  stop : Option ℚ := none
  num : Option Nat := none
  coordinates : Option (List String) := none
  deriving DecidableEq, Inhabited

/-- A CoverageJSON referencing entry (`Reference` model): the coordinates it
covers and the reference system's constant type tag. -/
structure Reference where
  coordinates : List String
  system : String
  deriving DecidableEq, Inhabited

/-- `SpatialReference2D`: x/y against the geographic CRS. -/
def spatialReference2D : Reference :=
  { coordinates := ["x", "y"], system := "GeographicCRS" }

/-- `TemporalReference`: t against the Gregorian temporal RS. -/
def temporalReference : Reference :=
  { coordinates := ["t"], system := "TemporalRS" }

/-- The four coverage domain kinds (`domainType` tags of the domain
subclasses in pydantic_covjson.py). -/
inductive DomainType
  | grid
  | pointSeries
  | multiPoint
  | trajectory
  deriving DecidableEq, Inhabited

/-- A CoverageJSON domain: its kind tag, named axes and referencing list. -/
structure Domain where
  domain_type : DomainType
  axes : List (String × Axis)
  referencing : List Reference
  deriving DecidableEq, Inhabited

/-- A CoverageJSON parameter, as the builder fills it: description from
`long_name`, observed-property label from `var_desc`, unit label from
`units`. -/
structure Parameter where
  description : String
  observed_property : String
  unit : String
  deriving DecidableEq, Inhabited

/-- A CoverageJSON range (the `NdArray` model): datatype tag, declared shape,
optional axis-name list and the row-major flattened values. -/
structure NdArray where
  datatype : String := "float"
  shape : List Nat
  axis_names : Option (List String) := none
  values : List ℚ
  deriving DecidableEq, Inhabited

/-- A CoverageJSON coverage: one domain plus the per-field parameters and
ranges. -/
structure Coverage where
  domain : Domain
  parameters : List (String × Parameter)
  ranges : List (String × NdArray)
  deriving DecidableEq, Inhabited

/-- The `dim2axis` dictionary of `_get_covjson_params_ranges` (main.py); a
dimension name outside the mapping raises `KeyError`. -/
def dim2axis : String → Except AppError String
  | "lon" => .ok "x"
  | "lat" => .ok "y"
  | "time" => .ok "t"
  | _ => .error .unknownAxisName

/-- The axis-name list of one range: mapped from the variable dims when
`include_axis_names` is set, absent otherwise (so `dim2axis` is only
consulted in the first case). -/
def axisNamesFor (include_axis_names : Bool) (dims : List String) :
    Except AppError (Option (List String)) :=
  if include_axis_names then (dims.mapM dim2axis).map some else .ok none

/-- `_get_covjson_params_ranges` (main.py): for every data variable, one
Parameter built from the variable attributes and one NdArray with
`shape = v.shape`, `values = v.values.ravel().tolist()` (the row-major flat
data) and the optional axis names. -/
def covjsonParamsRanges (dvars : List (String × Variable))
    (include_axis_names : Bool) :
    Except AppError (List (String × Parameter) × List (String × NdArray)) := do
  let entries ← dvars.mapM fun kv => do
    let v := kv.2
    let names ← axisNamesFor include_axis_names v.dims
    Except.ok (kv.1,
      ({ description := v.long_name, observed_property := v.var_desc,
         unit := v.units } : Parameter),
      ({ datatype := "float", shape := v.shape, axis_names := names,
         values := v.data } : NdArray))
  .ok (entries.map fun e => (e.1, e.2.1), entries.map fun e => (e.1, e.2.2))

/-- `GET /covjson/grid` (main.py): window the dataset to the last four time
steps with `isel(time=slice(-5, -1))`, fill missing values in place, expose
the full lon/lat/time coordinate axes as independent x/y/t axes of a Grid
domain and build parameters and ranges with axis names. -/
def get_grid_coverage (ds : Dataset) : Except AppError Coverage := do
  let d := ds.iselTime (-5) (-1)
  let axes : List (String × Axis) :=
    [("x", { values := some (d.lon.map AxisVal.prim) }),
     ("y", { values := some (d.lat.map AxisVal.prim) }),
     ("t", { values := some (d.time.map AxisVal.prim) })]
  let pr ← covjsonParamsRanges d.data_vars true
  .ok { domain := { domain_type := .grid, axes := axes,
                    referencing := [spatialReference2D, temporalReference] },
        parameters := pr.1, ranges := pr.2 }

/-- `GET /covjson/series/.../...` (main.py): window the dataset to the last
499 time steps, snap the requested lat/lon to the nearest grid point, expose
singleton x/y axes holding the snapped location and the full windowed time
axis in a PointSeries domain, and build parameters and ranges with axis
names. -/
def get_time_series_at_point (la lo : ℚ) (ds : Dataset) :
    Except AppError Coverage := do
  let d0 := ds.iselTime (-500) (-1)
  let li := nearestIdx d0.lat la
  let lj := nearestIdx d0.lon lo
  let d := { d0 with data_vars :=
    (d0.data_vars.map fun kv : String × Variable =>
      (kv.1, kv.2.selPointLatLon li lj)) }
  let axes : List (String × Axis) :=
    [("x", { values := some [AxisVal.prim (d0.lon.getD lj 0)] }),
     ("y", { values := some [AxisVal.prim (d0.lat.getD li 0)] }),
     ("t", { values := some (d0.time.map AxisVal.prim) })]
  let pr ← covjsonParamsRanges d.data_vars true
  .ok { domain := { domain_type := .pointSeries, axes := axes,
                    referencing := [spatialReference2D, temporalReference] },
        parameters := pr.1, ranges := pr.2 }

/-- The `POST /covjson/trajectory` body (`Trajectory` model, main.py): an
ordered list of `(time, lat, lon)` points. -/
structure Trajectory where
  points : List (ℚ × ℚ × ℚ)
  id : Option String := none
  deriving DecidableEq, Inhabited

/-- `POST /covjson/trajectory` (main.py): unzip the `(time, lat, lon)`
points, resolve every axis independently with `method="nearest"`, expose one
composite axis whose values are the `(t, x, y)` = (snapped time, snapped lon,
snapped lat) tuples in input order (`zip(new_time, new_lon, new_lat)`), and
build parameters and ranges without axis names. -/
def extract_trajectory (traj : Trajectory) (ds : Dataset) :
    Except AppError Coverage := do
  let time := traj.points.map fun p => p.1
  let lat := traj.points.map fun p => p.2.1
  let lon := traj.points.map fun p => p.2.2
  let tIdx := time.map fun q => nearestIdx ds.time q
  let latIdx := lat.map fun q => nearestIdx ds.lat q
  let lonIdx := lon.map fun q => nearestIdx ds.lon q
  let newTime := tIdx.map fun i => ds.time.getD i 0
  let newLat := latIdx.map fun i => ds.lat.getD i 0
  let newLon := lonIdx.map fun i => ds.lon.getD i 0
  let d := { ds with data_vars := (ds.data_vars.map fun kv : String × Variable =>
    (kv.1, kv.2.selPointwise3 "trajectory" tIdx latIdx lonIdx)) }
  let axes : List (String × Axis) :=
    [("composite",
      { values := some ((List.range traj.points.length).map fun k =>
          AxisVal.tup [newTime.getD k 0, newLon.getD k 0, newLat.getD k 0]),
        coordinates := some ["t", "x", "y"] })]
  let pr ← covjsonParamsRanges d.data_vars false
  .ok { domain := { domain_type := .trajectory, axes := axes,
                    referencing := [spatialReference2D, temporalReference] },
        parameters := pr.1, ranges := pr.2 }

/-- The `POST /covjson/points` body (`Points` model, main.py): one query date
and an ordered list of `(lat, lon)` points. -/
structure Points where
  date : ℚ
  values : List (ℚ × ℚ)
  id : Option String := none
  deriving DecidableEq, Inhabited

/-- `POST /covjson/points` (main.py): unzip the `(lat, lon)` points, resolve
lat/lon per point and the single query time once with `method="nearest"`,
expose a singleton t axis holding the snapped time and one composite axis
whose values are the `(x, y)` = (snapped lon, snapped lat) tuples in input
order (`zip(new_lon, new_lat)`), and build parameters and ranges without axis
names. -/
def extract_points (pts : Points) (ds : Dataset) : Except AppError Coverage := do
  let lat := pts.values.map Prod.fst
  let lon := pts.values.map Prod.snd
  let latIdx := lat.map fun q => nearestIdx ds.lat q
  let lonIdx := lon.map fun q => nearestIdx ds.lon q
  let ti := nearestIdx ds.time pts.date
  let newLat := latIdx.map fun i => ds.lat.getD i 0
  let newLon := lonIdx.map fun i => ds.lon.getD i 0
  let newTime := ds.time.getD ti 0
  let d := { ds with data_vars := (ds.data_vars.map fun kv : String × Variable =>
    (kv.1, kv.2.selPointwise3 "points"
      (List.replicate pts.values.length ti) latIdx lonIdx)) }
  let axes : List (String × Axis) :=
    [("t", { values := some [AxisVal.prim newTime] }),
     ("composite",
      { values := some ((List.range pts.values.length).map fun k =>
          AxisVal.tup [newLon.getD k 0, newLat.getD k 0]),
        coordinates := some ["x", "y"] })]
  let pr ← covjsonParamsRanges d.data_vars false
  .ok { domain := { domain_type := .multiPoint, axes := axes,
                    referencing := [spatialReference2D, temporalReference] },
        parameters := pr.1, ranges := pr.2 }

/-- The distinct schema-validation failures, one per structural invariant of
the assembled coverage. -/
inductive ValidationError
  | axisValuesEmpty
  | boundsLength
  | missingAxis
  | axisNamesLength
  | shapeValuesMismatch
  | keySetMismatch
  deriving DecidableEq, Inhabited

/-- Check 1: every axis with explicit values has a non-empty value list. -/
def checkAxisValues (cov : Coverage) : Bool :=
  cov.domain.axes.all fun kv =>
    match kv.2.values with
    | some vs => !vs.isEmpty
    | none => true

/-- Check 2: when an axis carries bounds, the bounds list is twice as long as
the value list. -/
def checkBounds (cov : Coverage) : Bool :=
  cov.domain.axes.all fun kv =>
    match kv.2.bounds with
    | some b => b.length == 2 * (kv.2.values.getD []).length
    | none => true

/-- Find an axis of the coverage domain by name. -/
def axisOf (cov : Coverage) (k : String) : Option Axis :=
  (cov.domain.axes.find? fun kv => kv.1 = k).map Prod.snd

/-- Check 3: the domain-kind-specific axis presence — a Grid has independent
x and y axes; a PointSeries has singleton x and y axes and a t axis; a
MultiPoint has a composite axis of (x, y) or (x, y, z) tuples; a Trajectory
has a composite axis of (t, x, y) or (t, x, y, z) tuples. -/
def checkDomainAxes (cov : Coverage) : Bool :=
  match cov.domain.domain_type with
  | .grid => (axisOf cov "x").isSome && (axisOf cov "y").isSome
  | .pointSeries =>
    (match axisOf cov "x", axisOf cov "y" with
     | some ax, some ay =>
       (ax.values.getD []).length == 1 && (ay.values.getD []).length == 1
     | _, _ => false) && (axisOf cov "t").isSome
  | .multiPoint =>
    match axisOf cov "composite" with
    | some c => c.coordinates == some ["x", "y"] ||
                c.coordinates == some ["x", "y", "z"]
    | none => false
  | .trajectory =>
    match axisOf cov "composite" with
    | some c => c.coordinates == some ["t", "x", "y"] ||
                c.coordinates == some ["t", "x", "y", "z"]
    | none => false

/-- Check 4: when a range carries axis names there is exactly one name per
shape entry. -/
def checkAxisNames (cov : Coverage) : Bool :=
  cov.ranges.all fun kv =>
    match kv.2.axis_names with
    | some ns => ns.length == kv.2.shape.length
    | none => true

/-- Check 5: for every range the product of the declared shape equals the
length of the flattened value list. -/
def checkShapeValues (cov : Coverage) : Bool :=
  cov.ranges.all fun kv => kv.2.shape.prod == kv.2.values.length

/-- Two string lists describe the same key set. -/
def sameKeySet (a b : List String) : Bool :=
  a.all (b.contains ·) && b.all (a.contains ·)

/-- Check 6: the parameter key set, the range key set and the requested
field-name set coincide. -/
def checkKeySets (cov : Coverage) (requested : List String) : Bool :=
  sameKeySet (cov.parameters.map Prod.fst) (cov.ranges.map Prod.fst) &&
  sameKeySet (cov.ranges.map Prod.fst) requested

/-- Modelled from the spec: the Schema Validator of the design (its section
4.4) with its six ordered structural checks; the source
(pydantic_covjson.py) declares these invariants only as pydantic field
constraints and TODO comments, so the ordered checker itself — the code
missing from the repository — is reconstructed from the spec's words.  The
first failing check short-circuits with the error naming the violated
invariant. -/
def validateCoverage (cov : Coverage) (requested : List String) :
    Except ValidationError Unit :=
  if !checkAxisValues cov then .error .axisValuesEmpty
  else if !checkBounds cov then .error .boundsLength
  else if !checkDomainAxes cov then .error .missingAxis
  else if !checkAxisNames cov then .error .axisNamesLength
  else if !checkShapeValues cov then .error .shapeValuesMismatch
  else if !checkKeySets cov requested then .error .keySetMismatch
  else .ok ()

/-- The demo-dataset layout invariant used by the coverage endpoints: every
data variable spans `(time, lat, lon)` with the shape matching the coordinate
lengths in that order, and the flat data length equal to the shape product
(the numpy invariant). -/
def Dataset.WF3 (ds : Dataset) : Prop :=
  ∀ kv ∈ ds.data_vars,
    kv.2.dims = ["time", "lat", "lon"] ∧
    kv.2.shape = [ds.time.length, ds.lat.length, ds.lon.length] ∧
    kv.2.data.length = ds.time.length * (ds.lat.length * ds.lon.length)

/-- The post-aggregation layout reaching the track extraction: every data
variable spans `(lat, lon)` with matching shape and flat data length. -/
def Dataset.WF2 (ds : Dataset) : Prop :=
  ∀ kv ∈ ds.data_vars,
    kv.2.dims = ["lat", "lon"] ∧
    kv.2.shape = [ds.lat.length, ds.lon.length] ∧
    kv.2.data.length = ds.lat.length * ds.lon.length

/-- Comparison definition, written from the words of the spec's section 6
("an ordered list of (longitude, latitude) coordinate pairs"): the track
extraction as it would behave if the first component of every coordinate
pair were used as the longitude query value and the second as the latitude
query value.  It differs from `extractTrack` only in which component feeds
which axis lookup. -/
def extractTrackLonLatSpec (ds : Dataset) (fieldnames : List String)
    (tr : Track) : Except AppError Track :=
  match tr.geometry with
  | .multiLineString _ => .error .unsupportedGeometry
  | .lineString coords =>
    let points_lon := coords.map Prod.fst
    let points_lat := coords.map Prod.snd
    let latIdx := points_lat.map fun q => nearestIdx ds.lat q
    let lonIdx := points_lon.map fun q => nearestIdx ds.lon q
    let newLat := latIdx.map fun i => ds.lat.getD i 0
    let newLon := lonIdx.map fun i => ds.lon.getD i 0
    do
      let props ← fieldnames.mapM fun fn =>
        match ds.findVar fn with
        | none => Except.error AppError.fieldNotFound
        | some v => Except.ok (fn, (List.range coords.length).map fun k =>
            v.at2 (latIdx.getD k 0) (lonIdx.getD k 0))
      .ok { geometry := .lineString (newLat.zip newLon), id := tr.id,
            properties := props }

/-- A small concrete data variable over a 2-step time axis and a 2 by 2
lat/lon grid, with the numpy layout invariant holding definitionally. -/
def demoVar : Variable :=
  { dims := ["time", "lat", "lon"], shape := [2, 2, 2],
    data := [1, 2, 3, 4, 5, 6, 7, 8],
    long_name := "4xDaily Air temperature", var_desc := "Air temperature",
    units := "degK" }

/-- A small concrete dataset in the demo layout, used to instantiate the
theorems below at a concrete input. -/
def demoDS : Dataset :=
  { lat := [10, 20], lon := [100, 110], time := [0, 1],
    data_vars := [("air", demoVar)] }

/-- A small concrete post-aggregation dataset (variables on the lat/lon
grid), used to instantiate the track-extraction theorems. -/
def demoDS2 : Dataset :=
  { lat := [10, 20], lon := [100, 110], time := [],
    data_vars := [("air", { dims := ["lat", "lon"], shape := [2, 2],
                            data := [1, 2, 3, 4] })] }

/-- A concrete two-point line-string track. -/
def demoTrack : Track :=
  { geometry := .lineString [(12, 104), (19, 101)], id := some "track-1" }

/-- A concrete track whose geometry is a multi-segment path. -/
def demoMulti : Track :=
  { geometry := .multiLineString [[(12, 104), (19, 101)]], id := some "track-2" }

/-- The concrete grid and track of the coordinate-order counterexample: the
lat axis and lon axis cover disjoint value ranges, so the two possible
readings of a coordinate pair snap to different grid points. -/
def dsC5 : Dataset :=
  { lat := [0, 1], lon := [100, 101], time := [], data_vars := [] }

/-- The track of the coordinate-order counterexample. -/
def trC5 : Track :=
  { geometry := .lineString [(0, 100), (1, 101)], id := none }

/-- Abbreviation for the Parameter the coverage builder produces from one
variable's attributes; used to state the builder characterisations. -/
def paramOfVar (v : Variable) : Parameter :=
  { description := v.long_name, observed_property := v.var_desc,
    unit := v.units }

/-- Abbreviation for the NdArray the coverage builder produces from one
variable; used to state the builder characterisations. -/
def ndarrayOfVar (v : Variable) (ns : Option (List String)) : NdArray :=
  { datatype := "float", shape := v.shape, axis_names := ns, values := v.data }

/-- A concrete two-point trajectory query for witnesses. -/
def demoTraj : Trajectory :=
  { points := [(0, 12, 104), (1, 19, 101)] }

/-- A concrete two-point Points query for witnesses. -/
def demoPts : Points :=
  { date := 0, values := [(12, 104), (19, 101)] }

/-- A concrete track collection holding one line-string track, for
witnesses. -/
def demoTC : TrackCollection := { features := [demoTrack] }

/-- A concrete track collection holding a line-string track followed by a
multi-segment track, for witnesses. -/
def demoTCMulti : TrackCollection := { features := [demoTrack, demoMulti] }

/-- A small concrete well-formed Grid coverage, used to instantiate the
validator theorem. -/
def demoCov : Coverage :=
  { domain :=
      { domain_type := .grid,
        axes := [("x", { values := some [AxisVal.prim 100] }),
                 ("y", { values := some [AxisVal.prim 10] })],
        referencing := [spatialReference2D, temporalReference] },
    parameters := [("air",
      { description := "", observed_property := "", unit := "" })],
    ranges := [("air",
      { datatype := "float", shape := [1, 1], axis_names := some ["x", "y"],
        values := [5] })] }

theorem sorted_getD_lt (xs : List ℚ) (hs : List.Pairwise (· < ·) xs) {i j : Nat}
    (hij : i < j) (hj : j < xs.length) : xs.getD i 0 < xs.getD j 0 := by
  have hi : i < xs.length := lt_trans hij hj
  rw [List.getD_eq_getElem xs 0 hi, List.getD_eq_getElem xs 0 hj]
  exact List.pairwise_iff_getElem.mp hs i j hi hj hij

theorem sorted_getD_le (xs : List ℚ) (hs : List.Pairwise (· < ·) xs) {i j : Nat}
    (hij : i ≤ j) (hj : j < xs.length) : xs.getD i 0 ≤ xs.getD j 0 := by
  rcases Nat.lt_or_ge i j with h | h
  · exact le_of_lt (sorted_getD_lt xs hs h hj)
  · have : i = j := le_antisymm hij h
    simp [this]

theorem sorted_getD_inj (xs : List ℚ) (hs : List.Pairwise (· < ·) xs) {i j : Nat}
    (hi : i < xs.length) (hj : j < xs.length)
    (h : xs.getD i 0 = xs.getD j 0) : i = j := by
  rcases lt_trichotomy i j with hc | hc | hc
  · exact absurd h (ne_of_lt (sorted_getD_lt xs hs hc hj))
  · exact hc
  · exact absurd h.symm (ne_of_lt (sorted_getD_lt xs hs hc hi))

theorem padIdx_eq_none (xs : List ℚ) (q : ℚ) (hs : List.Pairwise (· < ·) xs)
    (h : padIdx xs q = none) : ∀ i, i < xs.length → q < xs.getD i 0 := by
  cases xs with
  | nil => intro i hi; simp at hi
  | cons x t =>
    intro i hi
    have hx : q < x := by
      by_contra hc
      push_neg at hc
      simp [padIdx, hc] at h
    cases i with
    | zero => simpa using hx
    | succ j =>
      have hj : j < t.length := by simpa using hi
      have hmem : t.getD j 0 ∈ t := by
        rw [List.getD_eq_getElem t 0 hj]; exact List.getElem_mem hj
      have hxt : x < t.getD j 0 := (List.pairwise_cons.mp hs).1 _ hmem
      rw [List.getD_cons_succ]
      linarith

theorem padIdx_eq_some (xs : List ℚ) (q : ℚ) (hs : List.Pairwise (· < ·) xs)
    (l : Nat) (h : padIdx xs q = some l) :
    l < xs.length ∧ xs.getD l 0 ≤ q ∧
      ∀ j, j < xs.length → xs.getD j 0 ≤ q → j ≤ l := by
  induction xs generalizing l with
  | nil => simp [padIdx] at h
  | cons x t ih =>
    by_cases hx : x ≤ q
    · simp only [padIdx, if_pos hx] at h
      cases hpt : padIdx t q with
      | none =>
        rw [hpt] at h
        simp only [Option.elim, Option.some.injEq] at h
        subst h
        refine ⟨by simp, by simpa using hx, ?_⟩
        intro j hj hjle
        cases j with
        | zero => exact Nat.le_refl 0
        | succ j' =>
          exfalso
          have hj' : j' < t.length := by simpa using hj
          have := padIdx_eq_none t q (List.pairwise_cons.mp hs).2 hpt j' hj'
          rw [List.getD_cons_succ] at hjle
          linarith
      | some l' =>
        rw [hpt] at h
        simp only [Option.elim, Option.some.injEq] at h
        subst h
        obtain ⟨h1, h2, h3⟩ := ih (List.pairwise_cons.mp hs).2 l' hpt
        refine ⟨by simpa using h1, by simpa using h2, ?_⟩
        intro j hj hjle
        cases j with
        | zero => exact Nat.zero_le _
        | succ j' =>
          have hj' : j' < t.length := by simpa using hj
          rw [List.getD_cons_succ] at hjle
          exact Nat.succ_le_succ (h3 j' hj' hjle)
    · simp [padIdx, hx] at h

theorem bfillIdx_eq_none (xs : List ℚ) (q : ℚ)
    (h : bfillIdx xs q = none) : ∀ i, i < xs.length → xs.getD i 0 < q := by
  induction xs with
  | nil => intro i hi; simp at hi
  | cons x t ih =>
    intro i hi
    have hx : x < q := by
      by_contra hc
      push_neg at hc
      simp [bfillIdx, hc] at h
    have hht : bfillIdx t q = none := by
      by_cases hc : q ≤ x
      · simp [bfillIdx, hc] at h
      · simpa [bfillIdx, hc] using h
    cases i with
    | zero => simpa using hx
    | succ j =>
      have hj : j < t.length := by simpa using hi
      rw [List.getD_cons_succ]
      exact ih hht j hj

theorem bfillIdx_eq_some (xs : List ℚ) (q : ℚ) (r : Nat)
    (h : bfillIdx xs q = some r) :
    r < xs.length ∧ q ≤ xs.getD r 0 ∧ ∀ j, j < r → xs.getD j 0 < q := by
  induction xs generalizing r with
  | nil => simp [bfillIdx] at h
  | cons x t ih =>
    by_cases hx : q ≤ x
    · simp only [bfillIdx, if_pos hx, Option.some.injEq] at h
      subst h
      exact ⟨by simp, by simpa using hx, by intro j hj; omega⟩
    · simp only [bfillIdx, if_neg hx] at h
      cases hbt : bfillIdx t q with
      | none => rw [hbt] at h; simp at h
      | some r' =>
        rw [hbt] at h
        simp only [Option.map_some', Option.some.injEq] at h
        subst h
        obtain ⟨h1, h2, h3⟩ := ih r' hbt
        push_neg at hx
        refine ⟨by simpa using h1, by simpa using h2, ?_⟩
        intro j hj
        cases j with
        | zero => simpa using hx
        | succ j' =>
          rw [List.getD_cons_succ]
          exact h3 j' (by omega)

/-- C2 (counterexample): on the two-point equidistant grid with axis values 0
and 2 and query value 1, the two grid indices are at exactly equal absolute
distance, yet the nearest-neighbour sampler selects index 1 — not the lower
index 0 — refuting the claimed lowest-index tie-break. -/
theorem C2_counterexample :
    nearestIdx [0, 2] 1 = 1 ∧
      |([0, 2] : List ℚ).getD 0 0 - 1| = |([0, 2] : List ℚ).getD 1 0 - 1| := by
  constructor
  · norm_num [nearestIdx, padIdx, bfillIdx]
  · norm_num

/-- C2 (amended): on a strictly increasing coordinate axis the
nearest-neighbour sampler selects a valid grid index whose coordinate value
minimises absolute distance to the query value, and when two grid indices are
at exactly equal distance the higher grid index is always chosen (every index
at minimal distance is at most the selected one). -/
theorem C2_nearest_min_tie_higher (xs : List ℚ) (q : ℚ)
    (hs : List.Pairwise (· < ·) xs) (hne : xs ≠ []) :
    nearestIdx xs q < xs.length ∧
    (∀ j, j < xs.length →
      |xs.getD (nearestIdx xs q) 0 - q| ≤ |xs.getD j 0 - q|) ∧
    (∀ j, j < xs.length →
      |xs.getD j 0 - q| = |xs.getD (nearestIdx xs q) 0 - q| →
      j ≤ nearestIdx xs q) := by
  cases hp : padIdx xs q with
  | none =>
    cases hb : bfillIdx xs q with
    | none =>
      exfalso
      cases xs with
      | nil => exact hne rfl
      | cons x t =>
        have h1 : q < (x :: t).getD 0 0 := padIdx_eq_none _ _ hs hp 0 (by simp)
        have h2 : (x :: t).getD 0 0 < q := bfillIdx_eq_none _ _ hb 0 (by simp)
        linarith
    | some r =>
      have hbr : nearestIdx xs q = r := by simp [nearestIdx, hp, hb]
      obtain ⟨hrlen, hrge, _⟩ := bfillIdx_eq_some _ _ _ hb
      have hall : ∀ i, i < xs.length → q < xs.getD i 0 := padIdx_eq_none _ _ hs hp
      rw [hbr]
      refine ⟨hrlen, ?_, ?_⟩
      · intro j hj
        have h1 : q < xs.getD j 0 := hall j hj
        have h2 : q < xs.getD r 0 := hall r hrlen
        have hrj : r ≤ j := by
          by_contra hc
          push_neg at hc
          have := (bfillIdx_eq_some _ _ _ hb).2.2 j hc
          have := hall j (lt_trans hc hrlen)
          linarith
        have h3 : xs.getD r 0 ≤ xs.getD j 0 := sorted_getD_le xs hs hrj hj
        rw [abs_of_pos (by linarith), abs_of_pos (by linarith)]
        linarith
      · intro j hj htie
        have h1 : q < xs.getD j 0 := hall j hj
        have h2 : q < xs.getD r 0 := hall r hrlen
        rw [abs_of_pos (by linarith), abs_of_pos (by linarith)] at htie
        exact le_of_eq (sorted_getD_inj xs hs hj hrlen (by linarith))
  | some l =>
    obtain ⟨hllen, hlle, hlmax⟩ := padIdx_eq_some _ _ hs _ hp
    cases hb : bfillIdx xs q with
    | none =>
      have hbl : nearestIdx xs q = l := by simp [nearestIdx, hp, hb]
      have hall : ∀ i, i < xs.length → xs.getD i 0 < q := bfillIdx_eq_none _ _ hb
      rw [hbl]
      refine ⟨hllen, ?_, ?_⟩
      · intro j hj
        have hjl : j ≤ l := hlmax j hj (le_of_lt (hall j hj))
        have h3 : xs.getD j 0 ≤ xs.getD l 0 := sorted_getD_le xs hs hjl hllen
        have h1 := hall j hj
        have h2 := hall l hllen
        rw [abs_of_neg (by linarith), abs_of_neg (by linarith)]
        linarith
      · intro j hj htie
        have h1 := hall j hj
        have h2 := hall l hllen
        rw [abs_of_neg (by linarith), abs_of_neg (by linarith)] at htie
        exact le_of_eq (sorted_getD_inj xs hs hj hllen (by linarith))
    | some r =>
      obtain ⟨hrlen, hrge, hrmin⟩ := bfillIdx_eq_some _ _ _ hb
      have hdl : |xs.getD l 0 - q| = q - xs.getD l 0 := by
        rw [abs_sub_comm]
        exact abs_of_nonneg (by linarith)
      have hdr : |xs.getD r 0 - q| = xs.getD r 0 - q := abs_of_nonneg (by linarith)
      have key : ∀ j, j < xs.length →
          (xs.getD j 0 ≤ q ∧ j ≤ l) ∨ (q ≤ xs.getD j 0 ∧ r ≤ j) := by
        intro j hj
        by_cases hc : xs.getD j 0 ≤ q
        · exact Or.inl ⟨hc, hlmax j hj hc⟩
        · push_neg at hc
          refine Or.inr ⟨le_of_lt hc, ?_⟩
          by_contra hcr
          push_neg at hcr
          have := hrmin j hcr
          linarith
      by_cases hlt : |xs.getD l 0 - q| < |xs.getD r 0 - q|
      · have hbl : nearestIdx xs q = l := by
          simp only [nearestIdx, hp, hb]
          rw [if_pos hlt]
        rw [hbl]
        rw [hdl, hdr] at hlt
        refine ⟨hllen, ?_, ?_⟩
        · intro j hj
          rcases key j hj with ⟨hle, hjl⟩ | ⟨hge, hrj⟩
          · have h3 : xs.getD j 0 ≤ xs.getD l 0 := sorted_getD_le xs hs hjl hllen
            rw [hdl, abs_sub_comm, abs_of_nonneg (by linarith)]
            linarith
          · have h3 : xs.getD r 0 ≤ xs.getD j 0 := sorted_getD_le xs hs hrj hj
            rw [hdl, abs_of_nonneg (by linarith)]
            linarith
        · intro j hj htie
          rcases key j hj with ⟨hle, hjl⟩ | ⟨hge, hrj⟩
          · exact hjl
          · exfalso
            have h3 : xs.getD r 0 ≤ xs.getD j 0 := sorted_getD_le xs hs hrj hj
            rw [hdl, abs_of_nonneg (by linarith)] at htie
            linarith
      · have hbr : nearestIdx xs q = r := by
          simp only [nearestIdx, hp, hb]
          rw [if_neg hlt]
        rw [hbr]
        push_neg at hlt
        rw [hdl, hdr] at hlt
        refine ⟨hrlen, ?_, ?_⟩
        · intro j hj
          rcases key j hj with ⟨hle, hjl⟩ | ⟨hge, hrj⟩
          · have h3 : xs.getD j 0 ≤ xs.getD l 0 := sorted_getD_le xs hs hjl hllen
            rw [hdr, abs_sub_comm, abs_of_nonneg (by linarith)]
            linarith
          · have h3 : xs.getD r 0 ≤ xs.getD j 0 := sorted_getD_le xs hs hrj hj
            rw [hdr, abs_of_nonneg (by linarith)]
            linarith
        · intro j hj htie
          rcases key j hj with ⟨hle, hjl⟩ | ⟨hge, hrj⟩
          · have hlr : l ≤ r := by
              by_contra hc
              push_neg at hc
              have : xs.getD r 0 < xs.getD l 0 := sorted_getD_lt xs hs hc hllen
              linarith
            omega
          · have h3 : xs.getD r 0 ≤ xs.getD j 0 := sorted_getD_le xs hs hrj hj
            rw [hdr, abs_of_nonneg (by linarith)] at htie
            exact le_of_eq (sorted_getD_inj xs hs hj hrlen (by linarith))

/-- C2 (witness): the amended tie-break theorem instantiated on the concrete
two-point grid of the counterexample. -/
theorem C2_witness :
    nearestIdx [0, 2] 1 < ([0, 2] : List ℚ).length ∧
    (∀ j, j < ([0, 2] : List ℚ).length →
      |([0, 2] : List ℚ).getD (nearestIdx [0, 2] 1) 0 - 1| ≤
        |([0, 2] : List ℚ).getD j 0 - 1|) ∧
    (∀ j, j < ([0, 2] : List ℚ).length →
      |([0, 2] : List ℚ).getD j 0 - 1| =
        |([0, 2] : List ℚ).getD (nearestIdx [0, 2] 1) 0 - 1| →
      j ≤ nearestIdx [0, 2] 1) :=
  C2_nearest_min_tie_higher [0, 2] 1 (by norm_num) (by simp)

theorem range_map_getD {α β1 β2 γ : Type} (l : List α)
    (p : α → β1) (q : α → β2) (d1 : β1) (d2 : β2) (g : β1 → β2 → γ) :
    ((List.range l.length).map fun k =>
      g ((l.map p).getD k d1) ((l.map q).getD k d2)) =
      l.map fun a => g (p a) (q a) := by
  apply List.ext_getElem
  · simp
  · intro n h1 h2
    have hn : n < l.length := by simpa using h2
    simp only [List.getElem_map, List.getElem_range]
    rw [List.getD_eq_getElem _ _ (by simpa using hn),
        List.getD_eq_getElem _ _ (by simpa using hn)]
    simp

theorem range_map_getD3 {α β1 β2 β3 γ : Type} (l : List α)
    (p : α → β1) (q : α → β2) (r : α → β3) (d1 : β1) (d2 : β2) (d3 : β3)
    (g : β1 → β2 → β3 → γ) :
    ((List.range l.length).map fun k =>
      g ((l.map p).getD k d1) ((l.map q).getD k d2) ((l.map r).getD k d3)) =
      l.map fun a => g (p a) (q a) (r a) := by
  apply List.ext_getElem
  · simp
  · intro n h1 h2
    have hn : n < l.length := by simpa using h2
    simp only [List.getElem_map, List.getElem_range]
    rw [List.getD_eq_getElem _ _ (by simpa using hn),
        List.getD_eq_getElem _ _ (by simpa using hn),
        List.getD_eq_getElem _ _ (by simpa using hn)]
    simp

theorem mapM_ok_of_forall {α β : Type} (f : α → Except AppError β) (g : α → β)
    (l : List α) (h : ∀ a ∈ l, f a = .ok (g a)) :
    l.mapM f = .ok (l.map g) := by
  induction l with
  | nil => rfl
  | cons a t ih =>
    rw [List.mapM_cons, h a (by simp), ih (fun x hx => h x (by simp [hx]))]
    rfl

theorem extractTrack_ok (ds : Dataset) (fns : List String) (tr : Track)
    (coords : List (ℚ × ℚ)) (hgeom : tr.geometry = .lineString coords)
    (hf : ∀ fn ∈ fns, (ds.findVar fn).isSome) :
    extractTrack ds fns tr = .ok
      { geometry := .lineString
          (coords.map fun c => (snap ds.lat c.1, snap ds.lon c.2)),
        id := tr.id,
        properties := fns.map fun fn =>
          (fn, coords.map fun c =>
            ((ds.findVar fn).getD default).at2 (nearestIdx ds.lat c.1)
              (nearestIdx ds.lon c.2)) } := by
  obtain ⟨geom, tid, tprops⟩ := tr
  simp only at hgeom
  subst hgeom
  simp only [extractTrack]
  have hmap : fns.mapM (fun fn =>
      match ds.findVar fn with
      | none => Except.error AppError.fieldNotFound
      | some v => Except.ok (fn, (List.range coords.length).map fun k =>
          v.at2 (((coords.map Prod.fst).map fun q =>
              nearestIdx ds.lat q).getD k 0)
            (((coords.map Prod.snd).map fun q =>
              nearestIdx ds.lon q).getD k 0))) =
      .ok (fns.map fun fn => (fn, coords.map fun c =>
        ((ds.findVar fn).getD default).at2 (nearestIdx ds.lat c.1)
          (nearestIdx ds.lon c.2))) := by
    apply mapM_ok_of_forall
    intro fn hfn
    obtain ⟨v, hv⟩ := Option.isSome_iff_exists.mp (hf fn hfn)
    rw [hv]
    simp only [Option.getD_some, List.map_map, Function.comp_def]
    rw [range_map_getD coords (fun c => nearestIdx ds.lat c.1)
      (fun c => nearestIdx ds.lon c.2) 0 0 (fun i j => v.at2 i j)]
  rw [hmap]
  simp only [List.map_map, Function.comp_def, List.zip_map', snap]
  rfl

theorem covjsonParamsRanges_ok (dvars : List (String × Variable)) (inc : Bool)
    (nsOf : List String → Option (List String))
    (h : ∀ kv ∈ dvars, axisNamesFor inc kv.2.dims = .ok (nsOf kv.2.dims)) :
    covjsonParamsRanges dvars inc = .ok
      (dvars.map fun kv => (kv.1, paramOfVar kv.2),
       dvars.map fun kv => (kv.1, ndarrayOfVar kv.2 (nsOf kv.2.dims))) := by
  unfold covjsonParamsRanges
  have hmap := mapM_ok_of_forall
    (fun kv : String × Variable => do
      let names ← axisNamesFor inc kv.2.dims
      Except.ok (kv.1,
        ({ description := kv.2.long_name, observed_property := kv.2.var_desc,
           unit := kv.2.units } : Parameter),
        ({ datatype := "float", shape := kv.2.shape, axis_names := names,
           values := kv.2.data } : NdArray)))
    (fun kv => (kv.1, paramOfVar kv.2, ndarrayOfVar kv.2 (nsOf kv.2.dims)))
    dvars
    (by
      intro kv hkv
      simp only [h kv hkv]
      rfl)
  rw [hmap]
  show Except.ok
      (((dvars.map fun kv =>
          (kv.1, paramOfVar kv.2, ndarrayOfVar kv.2 (nsOf kv.2.dims))).map
        fun e => (e.1, e.2.1)),
       ((dvars.map fun kv =>
          (kv.1, paramOfVar kv.2, ndarrayOfVar kv.2 (nsOf kv.2.dims))).map
        fun e => (e.1, e.2.2))) = _
  simp only [List.map_map]
  rfl

theorem extract_trajectory_eq (traj : Trajectory) (ds : Dataset) :
    extract_trajectory traj ds = .ok
      { domain :=
          { domain_type := .trajectory,
            axes := [("composite",
              { values := some (traj.points.map fun p =>
                  AxisVal.tup [snap ds.time p.1, snap ds.lon p.2.2,
                    snap ds.lat p.2.1]),
                coordinates := some ["t", "x", "y"] })],
            referencing := [spatialReference2D, temporalReference] },
        parameters := (ds.data_vars.map fun kv =>
          (kv.1, paramOfVar (kv.2.selPointwise3 "trajectory"
            (traj.points.map fun p => nearestIdx ds.time p.1)
            (traj.points.map fun p => nearestIdx ds.lat p.2.1)
            (traj.points.map fun p => nearestIdx ds.lon p.2.2)))),
        ranges := (ds.data_vars.map fun kv =>
          (kv.1, ndarrayOfVar (kv.2.selPointwise3 "trajectory"
            (traj.points.map fun p => nearestIdx ds.time p.1)
            (traj.points.map fun p => nearestIdx ds.lat p.2.1)
            (traj.points.map fun p => nearestIdx ds.lon p.2.2)) none)) } := by
  simp only [extract_trajectory]
  rw [covjsonParamsRanges_ok _ false (fun _ => none) (fun kv hkv => rfl)]
  simp only [Except.instMonad, Except.bind, List.map_map, Function.comp_def]
  simp only [snap]
  rw [range_map_getD3 traj.points
    (fun x => ds.time.getD (nearestIdx ds.time x.1) 0)
    (fun x => ds.lon.getD (nearestIdx ds.lon x.2.2) 0)
    (fun x => ds.lat.getD (nearestIdx ds.lat x.2.1) 0) 0 0 0
    (fun a b c => AxisVal.tup [a, b, c])]

theorem extract_points_eq (pts : Points) (ds : Dataset) :
    extract_points pts ds = .ok
      { domain :=
          { domain_type := .multiPoint,
            axes := [("t",
              { values := some [AxisVal.prim (snap ds.time pts.date)] }),
             ("composite",
              { values := some (pts.values.map fun p =>
                  AxisVal.tup [snap ds.lon p.2, snap ds.lat p.1]),
                coordinates := some ["x", "y"] })],
            referencing := [spatialReference2D, temporalReference] },
        parameters := (ds.data_vars.map fun kv =>
          (kv.1, paramOfVar (kv.2.selPointwise3 "points"
            (List.replicate pts.values.length (nearestIdx ds.time pts.date))
            (pts.values.map fun p => nearestIdx ds.lat p.1)
            (pts.values.map fun p => nearestIdx ds.lon p.2)))),
        ranges := (ds.data_vars.map fun kv =>
          (kv.1, ndarrayOfVar (kv.2.selPointwise3 "points"
            (List.replicate pts.values.length (nearestIdx ds.time pts.date))
            (pts.values.map fun p => nearestIdx ds.lat p.1)
            (pts.values.map fun p => nearestIdx ds.lon p.2)) none)) } := by
  simp only [extract_points]
  rw [covjsonParamsRanges_ok _ false (fun _ => none) (fun kv hkv => rfl)]
  simp only [Except.instMonad, Except.bind, List.map_map, Function.comp_def]
  simp only [snap]
  rw [range_map_getD pts.values
    (fun x => ds.lon.getD (nearestIdx ds.lon x.2) 0)
    (fun x => ds.lat.getD (nearestIdx ds.lat x.1) 0) 0 0
    (fun a b => AxisVal.tup [a, b])]

theorem get_time_series_eq (la lo : ℚ) (ds : Dataset) :
    get_time_series_at_point la lo ds = .ok
      { domain :=
          { domain_type := .pointSeries,
            axes := [("x",
              { values := some [AxisVal.prim (snap ds.lon lo)] }),
             ("y",
              { values := some [AxisVal.prim (snap ds.lat la)] }),
             ("t",
              { values := some
                  ((ds.iselTime (-500) (-1)).time.map AxisVal.prim) })],
            referencing := [spatialReference2D, temporalReference] },
        parameters := ((ds.iselTime (-500) (-1)).data_vars.map fun kv =>
          (kv.1, paramOfVar (kv.2.selPointLatLon (nearestIdx ds.lat la)
            (nearestIdx ds.lon lo)))),
        ranges := ((ds.iselTime (-500) (-1)).data_vars.map fun kv =>
          (kv.1, ndarrayOfVar (kv.2.selPointLatLon (nearestIdx ds.lat la)
            (nearestIdx ds.lon lo)) (some ["t"]))) } := by
  simp only [get_time_series_at_point]
  rw [covjsonParamsRanges_ok _ true (fun _ => some ["t"]) ?hn]
  case hn =>
    intro kv hkv
    obtain ⟨kv0, _, rfl⟩ := List.mem_map.mp hkv
    rfl
  simp only [Except.instMonad, Except.bind, List.map_map, Function.comp_def]
  simp only [snap]
  rfl

theorem get_grid_coverage_eq (ds : Dataset)
    (h : ∀ kv ∈ ds.data_vars, kv.2.dims = ["time", "lat", "lon"]) :
    get_grid_coverage ds = .ok
      { domain :=
          { domain_type := .grid,
            axes := [("x", { values := some (ds.lon.map AxisVal.prim) }),
             ("y", { values := some (ds.lat.map AxisVal.prim) }),
             ("t",
              { values := some
                  ((ds.iselTime (-5) (-1)).time.map AxisVal.prim) })],
            referencing := [spatialReference2D, temporalReference] },
        parameters := ((ds.iselTime (-5) (-1)).data_vars.map fun kv =>
          (kv.1, paramOfVar kv.2)),
        ranges := ((ds.iselTime (-5) (-1)).data_vars.map fun kv =>
          (kv.1, ndarrayOfVar kv.2 (some ["t", "y", "x"]))) } := by
  simp only [get_grid_coverage]
  rw [covjsonParamsRanges_ok _ true (fun _ => some ["t", "y", "x"]) ?hn]
  case hn =>
    intro kv hkv
    simp only [Dataset.iselTime] at hkv
    obtain ⟨kv0, hkv0, rfl⟩ := List.mem_map.mp hkv
    have hd : kv0.2.dims = ["time", "lat", "lon"] := h kv0 hkv0
    simp only [axisNamesFor, if_true, hd]
    rfl
  simp only [Except.instMonad, Except.bind]
  rfl

theorem mapM_ok_pointwise {α β : Type} [Inhabited α] [Inhabited β]
    (f : α → Except AppError β) (l : List α)
    (h : ∀ a ∈ l, ∃ b, f a = .ok b) :
    ∃ l', l.mapM f = .ok l' ∧ l'.length = l.length ∧
      ∀ i, i < l.length →
        f (l.getD i default) = .ok (l'.getD i default) := by
  induction l with
  | nil => exact ⟨[], rfl, rfl, fun i hi => absurd hi (by simp)⟩
  | cons a t ih =>
    obtain ⟨b, hb⟩ := h a (by simp)
    obtain ⟨t', ht', hlen, hidx⟩ := ih (fun x hx => h x (by simp [hx]))
    refine ⟨b :: t', ?_, by simp [hlen], ?_⟩
    · rw [List.mapM_cons, hb, ht']
      rfl
    · intro i hi
      cases i with
      | zero => simpa using hb
      | succ j =>
        simp only [List.getD_cons_succ]
        exact hidx j (by simpa using hi)

theorem mapM_error_of_multi (ds : Dataset) (fns : List String) (l : List Track)
    (hf : ∀ fn ∈ fns, (ds.findVar fn).isSome)
    (hml : ∃ tr ∈ l, ∃ cs, tr.geometry = .multiLineString cs) :
    l.mapM (extractTrack ds fns) = .error .unsupportedGeometry := by
  induction l with
  | nil => simp at hml
  | cons a t ih =>
    have hmulti : ∀ tr : Track, ∀ cs, tr.geometry = .multiLineString cs →
        extractTrack ds fns tr = .error .unsupportedGeometry := by
      intro tr cs hcs
      obtain ⟨g, i, p⟩ := tr
      simp only at hcs
      subst hcs
      rfl
    rcases hml with ⟨tr, htr, cs, hcs⟩
    rcases List.mem_cons.mp htr with rfl | hmem
    · rw [List.mapM_cons, hmulti tr cs hcs]
      rfl
    · cases hg : a.geometry with
      | multiLineString cs2 =>
        rw [List.mapM_cons, hmulti a cs2 hg]
        rfl
      | lineString cs2 =>
        rw [List.mapM_cons, extractTrack_ok ds fns a cs2 hg hf,
          ih ⟨tr, hmem, cs, hcs⟩]
        rfl

theorem not_mem_eraseIdx_findIdx (l : List String) (d : String)
    (hn : l.Nodup) (p : Nat) (hp : l.findIdx? (· = d) = some p) :
    d ∉ l.eraseIdx p := by
  induction l generalizing p with
  | nil => simp [List.findIdx?] at hp
  | cons x t ih =>
    rw [List.findIdx?_cons] at hp
    by_cases hx : x = d
    · rw [if_pos (by simpa using hx)] at hp
      have hp0 : p = 0 := by simpa using hp.symm
      subst hp0
      simp only [List.eraseIdx_cons_zero]
      subst hx
      exact (List.nodup_cons.mp hn).1
    · rw [if_neg (by simpa using hx), List.findIdx?_succ] at hp
      cases hpt : t.findIdx? (· = d) with
      | none => rw [hpt] at hp; simp at hp
      | some p' =>
        rw [hpt] at hp
        simp only [Option.map_some', Option.some.injEq] at hp
        subst hp
        simp only [List.eraseIdx_cons_succ]
        intro hmem
        rcases List.mem_cons.mp hmem with h1 | h1
        · exact hx h1.symm
        · exact ih (List.nodup_cons.mp hn).2 p' hpt h1

theorem meanDim_not_mem (v : Variable) (d : String) (hn : v.dims.Nodup) :
    d ∉ (v.meanDim d).dims := by
  unfold Variable.meanDim
  cases hfi : v.dims.findIdx? (· = d) with
  | none =>
    simp only
    intro hmem
    have := List.findIdx?_eq_none_iff.mp hfi d hmem
    simp at this
  | some p =>
    simp only
    exact not_mem_eraseIdx_findIdx v.dims d hn p hfi

theorem pySliceIdx_bounds (n : Nat) (a b : Int) (hab : a ≤ b) (hb : b < 0) :
    (pySliceIdx n a b).1 ≤ (pySliceIdx n a b).2 ∧ (pySliceIdx n a b).2 ≤ n := by
  have ha : a < 0 := lt_of_le_of_lt hab hb
  unfold pySliceIdx
  simp only [if_pos ha, if_pos hb]
  constructor <;> omega

theorem length_take_drop_block (data : List ℚ) (n block s e : Nat)
    (hlen : data.length = n * block) (hse : s ≤ e) (hen : e ≤ n) :
    ((data.drop (s * block)).take ((e - s) * block)).length =
      (e - s) * block := by
  rw [List.length_take, List.length_drop, hlen]
  have h1 : (e - s) * block ≤ n * block - s * block := by
    rw [← Nat.sub_mul]
    exact Nat.mul_le_mul_right _ (by omega)
  omega

/-- C1: extraction preserves input order.  For a track whose geometry is a
LineString, the extraction succeeds and the i-th snapped coordinate pair and
the i-th entry of every field's value list are computed from the i-th input
coordinate pair alone (the results are the pointwise image of the input
list); for a trajectory query, the i-th composite-axis tuple is the snapped
(time, lon, lat) of the i-th input point (the composite values are the
pointwise image of the input point list, in the same order). -/
theorem C1_extraction_preserves_order (ds : Dataset) (fns : List String)
    (tr : Track) (coords : List (ℚ × ℚ))
    (hgeom : tr.geometry = .lineString coords) (hc : 2 ≤ coords.length)
    (hf : ∀ fn ∈ fns, (ds.findVar fn).isSome)
    (hlat : ds.lat ≠ []) (hlon : ds.lon ≠ [])
    (dsT : Dataset) (traj : Trajectory) (htraj : traj.points ≠ [])
    (hlatT : dsT.lat ≠ []) (hlonT : dsT.lon ≠ []) (htimeT : dsT.time ≠ []) :
    (∃ out, extractTrack ds fns tr = .ok out ∧
      out.geometry = .lineString (coords.map fun c =>
        (snap ds.lat c.1, snap ds.lon c.2)) ∧
      out.properties = (fns.map fun fn => (fn, coords.map fun c =>
        ((ds.findVar fn).getD default).at2 (nearestIdx ds.lat c.1)
          (nearestIdx ds.lon c.2)))) ∧
    (∃ cov, extract_trajectory traj dsT = .ok cov ∧
      cov.domain.axes = [("composite",
        { values := some (traj.points.map fun p =>
            AxisVal.tup [snap dsT.time p.1, snap dsT.lon p.2.2,
              snap dsT.lat p.2.1]),
          coordinates := some ["t", "x", "y"] })]) := by
  constructor
  · exact ⟨_, extractTrack_ok ds fns tr coords hgeom hf, rfl, rfl⟩
  · exact ⟨_, extract_trajectory_eq traj dsT, rfl⟩

/-- C1 (witness): the order-preservation theorem instantiated on a concrete
two-point track over a 2 by 2 grid and a concrete two-point trajectory over
the small demo dataset. -/
theorem C1_witness :
    (∃ out, extractTrack demoDS2 ["air"] demoTrack = .ok out ∧
      out.geometry = .lineString ([(12, 104), (19, 101)].map fun c =>
        (snap demoDS2.lat c.1, snap demoDS2.lon c.2)) ∧
      out.properties = (["air"].map fun fn => (fn,
        [((12 : ℚ), (104 : ℚ)), (19, 101)].map fun c =>
          ((demoDS2.findVar fn).getD default).at2
            (nearestIdx demoDS2.lat c.1) (nearestIdx demoDS2.lon c.2)))) ∧
    (∃ cov, extract_trajectory demoTraj demoDS = .ok cov ∧
      cov.domain.axes = [("composite",
        { values := some (demoTraj.points.map fun p =>
            AxisVal.tup [snap demoDS.time p.1, snap demoDS.lon p.2.2,
              snap demoDS.lat p.2.1]),
          coordinates := some ["t", "x", "y"] })]) :=
  C1_extraction_preserves_order demoDS2 ["air"] demoTrack
    [(12, 104), (19, 101)] rfl (by norm_num)
    (by intro fn hfn; fin_cases hfn <;> decide)
    (by decide) (by decide)
    demoDS demoTraj (by decide) (by decide) (by decide) (by decide)

/-- C3: a feature collection containing a MultiLineString track makes the
extraction fail with the unsupported-geometry error, and the extraction never
returns a result collection. -/
theorem C3_multilinestring_rejected (ds : Dataset) (fns : List String)
    (tc : TrackCollection)
    (hf : ∀ fn ∈ fns, (ds.findVar fn).isSome)
    (hml : ∃ tr ∈ tc.features, ∃ cs, tr.geometry = .multiLineString cs) :
    extract_data_along_tracks ds fns tc = .error .unsupportedGeometry ∧
    ∀ tc', extract_data_along_tracks ds fns tc ≠ .ok tc' := by
  have h := mapM_error_of_multi ds fns tc.features hf hml
  have hmain : extract_data_along_tracks ds fns tc =
      .error .unsupportedGeometry := by
    simp only [extract_data_along_tracks]
    rw [h]
    rfl
  exact ⟨hmain, fun tc' hcon => by rw [hmain] at hcon; cases hcon⟩

/-- C3 (witness): the rejection theorem instantiated on a concrete collection
holding a line-string track followed by a multi-segment track. -/
theorem C3_witness :
    extract_data_along_tracks demoDS2 ["air"] demoTCMulti =
      .error .unsupportedGeometry ∧
    ∀ tc', extract_data_along_tracks demoDS2 ["air"] demoTCMulti ≠ .ok tc' :=
  C3_multilinestring_rejected demoDS2 ["air"] demoTCMulti
    (by intro fn hfn; fin_cases hfn <;> decide)
    ⟨demoMulti, by decide, [[(12, 104), (19, 101)]], rfl⟩

/-- C5 (counterexample): on a grid whose latitude axis holds the values 0 and
1 and whose longitude axis holds 100 and 101, the track with coordinate pairs
(0, 100) and (1, 101) snaps to the model points (0, 100) and (1, 101) — the
first pair components were resolved against the latitude axis.  Under the
claimed (longitude, latitude) reading, modelled by the spec-words variant,
the same input would snap both points to latitude 1 and longitude 100.  The
two outputs differ, so the claim that the first component is used as the
longitude query is false on this input. -/
theorem C5_counterexample :
    extractTrack dsC5 [] trC5 =
      .ok { geometry := .lineString [(0, 100), (1, 101)], id := none,
            properties := [] } ∧
    extractTrackLonLatSpec dsC5 [] trC5 =
      .ok { geometry := .lineString [(1, 100), (1, 100)], id := none,
            properties := [] } ∧
    (Geometry.lineString [(0, 100), (1, 101)] ≠
      Geometry.lineString [(1, 100), (1, 100)]) := by
  refine ⟨?_, ?_, by decide⟩
  · rw [extractTrack_ok dsC5 [] trC5 [(0, 100), (1, 101)] rfl (by simp)]
    norm_num [snap, nearestIdx, padIdx, bfillIdx, dsC5, trC5]
  · simp only [extractTrackLonLatSpec, List.mapM_nil]
    norm_num [nearestIdx, padIdx, bfillIdx, dsC5]
    rfl

/-- C5 (amended): each coordinate pair of a track is interpreted as
(latitude, longitude): the first component of each pair is used as the
latitude query value and the second as the longitude query value when
resolving nearest grid indices (matching the spec's own data model
`Track = ordered [(lat, lon)]`). -/
theorem C5_pair_is_lat_lon (ds : Dataset) (fns : List String)
    (tr : Track) (coords : List (ℚ × ℚ))
    (hgeom : tr.geometry = .lineString coords) (hc : 2 ≤ coords.length)
    (hf : ∀ fn ∈ fns, (ds.findVar fn).isSome)
    (hlat : ds.lat ≠ []) (hlon : ds.lon ≠ []) :
    ∃ out, extractTrack ds fns tr = .ok out ∧
      out.geometry = .lineString (coords.map fun c =>
        (snap ds.lat c.1, snap ds.lon c.2)) ∧
      out.properties = (fns.map fun fn => (fn, coords.map fun c =>
        ((ds.findVar fn).getD default).at2 (nearestIdx ds.lat c.1)
          (nearestIdx ds.lon c.2))) :=
  ⟨_, extractTrack_ok ds fns tr coords hgeom hf, rfl, rfl⟩

/-- C5 (witness): the amended coordinate-order theorem instantiated on the
concrete counterexample grid and track. -/
theorem C5_witness :
    ∃ out, extractTrack dsC5 [] trC5 = .ok out ∧
      out.geometry = .lineString ([((0 : ℚ), (100 : ℚ)), (1, 101)].map
        fun c => (snap dsC5.lat c.1, snap dsC5.lon c.2)) ∧
      out.properties = (([] : List String).map fun fn =>
        (fn, [((0 : ℚ), (100 : ℚ)), (1, 101)].map fun c =>
          ((dsC5.findVar fn).getD default).at2 (nearestIdx dsC5.lat c.1)
            (nearestIdx dsC5.lon c.2))) :=
  C5_pair_is_lat_lon dsC5 [] trC5 [(0, 100), (1, 101)] rfl (by norm_num)
    (by simp) (by decide) (by decide)

/-- C10: for a collection of LineString tracks the extraction returns exactly
one output feature per input feature, in the same order (the i-th output is
the extraction of the i-th input), and every output feature keeps the id of
its input feature unchanged. -/
theorem C10_one_output_per_feature (ds : Dataset) (fns : List String)
    (tc : TrackCollection)
    (hall : ∀ tr ∈ tc.features, ∃ cs, tr.geometry = .lineString cs)
    (hf : ∀ fn ∈ fns, (ds.findVar fn).isSome) :
    ∃ tc', extract_data_along_tracks ds fns tc = .ok tc' ∧
      tc'.features.length = tc.features.length ∧
      ∀ i, i < tc.features.length →
        extractTrack ds fns (tc.features.getD i default) =
          .ok (tc'.features.getD i default) ∧
        (tc'.features.getD i default).id =
          (tc.features.getD i default).id := by
  have hpt : ∀ tr ∈ tc.features, ∃ b, extractTrack ds fns tr = .ok b := by
    intro tr htr
    obtain ⟨cs, hcs⟩ := hall tr htr
    exact ⟨_, extractTrack_ok ds fns tr cs hcs hf⟩
  obtain ⟨l', hl', hlen, hidx⟩ :=
    mapM_ok_pointwise (extractTrack ds fns) tc.features hpt
  refine ⟨{ features := l' }, ?_, hlen, ?_⟩
  · simp only [extract_data_along_tracks]
    rw [hl']
    rfl
  · intro i hi
    have hmem : tc.features.getD i default ∈ tc.features := by
      rw [List.getD_eq_getElem _ _ hi]
      exact List.getElem_mem hi
    obtain ⟨cs, hcs⟩ := hall _ hmem
    have hok := extractTrack_ok ds fns (tc.features.getD i default) cs hcs hf
    have hi' := hidx i hi
    refine ⟨hi', ?_⟩
    have heq : l'.getD i default =
        { geometry := .lineString (cs.map fun c =>
            (snap ds.lat c.1, snap ds.lon c.2)),
          id := (tc.features.getD i default).id,
          properties := (fns.map fun fn => (fn, cs.map fun c =>
            ((ds.findVar fn).getD default).at2 (nearestIdx ds.lat c.1)
              (nearestIdx ds.lon c.2))) } := by
      have := hi'.symm.trans hok
      exact Except.ok.inj this
    rw [heq]

/-- C10 (witness): the per-feature theorem instantiated on a concrete
one-track collection over the 2 by 2 grid. -/
theorem C10_witness :
    ∃ tc', extract_data_along_tracks demoDS2 ["air"] demoTC = .ok tc' ∧
      tc'.features.length = demoTC.features.length ∧
      ∀ i, i < demoTC.features.length →
        extractTrack demoDS2 ["air"] (demoTC.features.getD i default) =
          .ok (tc'.features.getD i default) ∧
        (tc'.features.getD i default).id =
          (demoTC.features.getD i default).id :=
  C10_one_output_per_feature demoDS2 ["air"] demoTC
    (by intro tr htr; fin_cases htr; exact ⟨_, rfl⟩)
    (by intro fn hfn; fin_cases hfn <;> decide)

/-- C6: the mean Aggregation Transform fails with the dimension-not-found
error when the named axis is absent from the Grid Store, and for a present
axis it succeeds and the named axis is removed from the dimensions of every
data variable of the result. -/
theorem C6_aggregation_mean (ds : Dataset) (d : String)
    (hnodup : ∀ kv ∈ ds.data_vars, kv.2.dims.Nodup) :
    (d ∉ ds.dimsAll → ds.mean (some d) = .error .dimensionNotFound) ∧
    (d ∈ ds.dimsAll → ∃ ds', ds.mean (some d) = .ok ds' ∧
      ∀ kv ∈ ds'.data_vars, d ∉ kv.2.dims) := by
  constructor
  · intro hd
    simp only [Dataset.mean]
    rw [if_neg hd]
  · intro hd
    simp only [Dataset.mean]
    rw [if_pos hd]
    refine ⟨_, rfl, ?_⟩
    intro kv hkv
    obtain ⟨kv0, hkv0, rfl⟩ := List.mem_map.mp hkv
    exact meanDim_not_mem kv0.2 d (hnodup kv0 hkv0)

/-- C6 (witness): the aggregation theorem instantiated on the small demo
dataset with an absent axis name and with the present time axis. -/
theorem C6_witness :
    demoDS.mean (some "depth") = .error .dimensionNotFound ∧
    ∃ ds', demoDS.mean (some "time") = .ok ds' ∧
      ∀ kv ∈ ds'.data_vars, "time" ∉ kv.2.dims :=
  ⟨(C6_aggregation_mean demoDS "depth" (by decide)).1 (by decide),
   (C6_aggregation_mean demoDS "time" (by decide)).2 (by decide)⟩

/-- C4: for every Range produced by the coverage builder — for the Grid,
PointSeries, MultiPoint and Trajectory endpoints alike — the product of the
declared shape equals the length of the flattened values list. -/
theorem C4_shape_prod_eq_values_length (ds : Dataset) (h : ds.WF3)
    (la lo : ℚ) (traj : Trajectory) (pts : Points)
    (hlat : ds.lat ≠ []) (hlon : ds.lon ≠ []) (htime : ds.time ≠ [])
    (htraj : traj.points ≠ []) (hpts : pts.values ≠ []) :
    (∃ cov, get_grid_coverage ds = .ok cov ∧
      ∀ kv ∈ cov.ranges, kv.2.shape.prod = kv.2.values.length) ∧
    (∃ cov, get_time_series_at_point la lo ds = .ok cov ∧
      ∀ kv ∈ cov.ranges, kv.2.shape.prod = kv.2.values.length) ∧
    (∃ cov, extract_points pts ds = .ok cov ∧
      ∀ kv ∈ cov.ranges, kv.2.shape.prod = kv.2.values.length) ∧
    (∃ cov, extract_trajectory traj ds = .ok cov ∧
      ∀ kv ∈ cov.ranges, kv.2.shape.prod = kv.2.values.length) := by
  have hdims : ∀ kv ∈ ds.data_vars, kv.2.dims = ["time", "lat", "lon"] :=
    fun kv hkv => (h kv hkv).1
  refine ⟨⟨_, get_grid_coverage_eq ds hdims, ?_⟩,
    ⟨_, get_time_series_eq la lo ds, ?_⟩,
    ⟨_, extract_points_eq pts ds, ?_⟩,
    ⟨_, extract_trajectory_eq traj ds, ?_⟩⟩
  · intro kv hkv
    simp only [Dataset.iselTime] at hkv
    rw [List.map_map] at hkv
    obtain ⟨kv0, hkv0, rfl⟩ := List.mem_map.mp hkv
    obtain ⟨_, hs, hl⟩ := h kv0 hkv0
    obtain ⟨hse, hen⟩ :=
      pySliceIdx_bounds ds.time.length (-5) (-1) (by norm_num) (by norm_num)
    simp only [Function.comp_def, ndarrayOfVar, hs]
    rw [length_take_drop_block kv0.2.data ds.time.length
      (([ds.time.length, ds.lat.length, ds.lon.length].drop 1).prod)
      _ _ (by simpa using hl) hse hen]
    simp
  · intro kv hkv
    obtain ⟨kv1, _, rfl⟩ := List.mem_map.mp hkv
    simp [ndarrayOfVar, Variable.selPointLatLon]
  · intro kv hkv
    obtain ⟨kv1, _, rfl⟩ := List.mem_map.mp hkv
    simp [ndarrayOfVar, Variable.selPointwise3]
  · intro kv hkv
    obtain ⟨kv1, _, rfl⟩ := List.mem_map.mp hkv
    simp [ndarrayOfVar, Variable.selPointwise3]

/-- C4 (witness): the shape/values invariant instantiated on the small demo
dataset, a concrete series location, a concrete two-point trajectory and a
concrete two-point Points query. -/
theorem C4_witness :
    (∃ cov, get_grid_coverage demoDS = .ok cov ∧
      ∀ kv ∈ cov.ranges, kv.2.shape.prod = kv.2.values.length) ∧
    (∃ cov, get_time_series_at_point 12 104 demoDS = .ok cov ∧
      ∀ kv ∈ cov.ranges, kv.2.shape.prod = kv.2.values.length) ∧
    (∃ cov, extract_points demoPts demoDS = .ok cov ∧
      ∀ kv ∈ cov.ranges, kv.2.shape.prod = kv.2.values.length) ∧
    (∃ cov, extract_trajectory demoTraj demoDS = .ok cov ∧
      ∀ kv ∈ cov.ranges, kv.2.shape.prod = kv.2.values.length) :=
  C4_shape_prod_eq_values_length demoDS (by unfold Dataset.WF3; decide) 12 104 demoTraj demoPts
    (by decide) (by decide) (by decide) (by decide) (by decide)

/-- C7: every Range of the Grid and PointSeries coverages carries an
axis-name list mapped from the variable's dependent axes, with exactly one
name per shape entry, while every Range of the MultiPoint and Trajectory
coverages omits the axis-name list. -/
theorem C7_axis_names_presence (ds : Dataset) (h : ds.WF3)
    (la lo : ℚ) (traj : Trajectory) (pts : Points)
    (hlat : ds.lat ≠ []) (hlon : ds.lon ≠ []) (htime : ds.time ≠ [])
    (htraj : traj.points ≠ []) (hpts : pts.values ≠ []) :
    (∃ cov, get_grid_coverage ds = .ok cov ∧
      ∀ kv ∈ cov.ranges, kv.2.axis_names = some ["t", "y", "x"] ∧
        kv.2.shape.length = 3) ∧
    (∃ cov, get_time_series_at_point la lo ds = .ok cov ∧
      ∀ kv ∈ cov.ranges, kv.2.axis_names = some ["t"] ∧
        kv.2.shape.length = 1) ∧
    (∃ cov, extract_points pts ds = .ok cov ∧
      ∀ kv ∈ cov.ranges, kv.2.axis_names = none) ∧
    (∃ cov, extract_trajectory traj ds = .ok cov ∧
      ∀ kv ∈ cov.ranges, kv.2.axis_names = none) := by
  have hdims : ∀ kv ∈ ds.data_vars, kv.2.dims = ["time", "lat", "lon"] :=
    fun kv hkv => (h kv hkv).1
  refine ⟨⟨_, get_grid_coverage_eq ds hdims, ?_⟩,
    ⟨_, get_time_series_eq la lo ds, ?_⟩,
    ⟨_, extract_points_eq pts ds, ?_⟩,
    ⟨_, extract_trajectory_eq traj ds, ?_⟩⟩
  · intro kv hkv
    simp only [Dataset.iselTime] at hkv
    rw [List.map_map] at hkv
    obtain ⟨kv0, hkv0, rfl⟩ := List.mem_map.mp hkv
    obtain ⟨_, hs, _⟩ := h kv0 hkv0
    simp [ndarrayOfVar, hs]
  · intro kv hkv
    obtain ⟨kv1, _, rfl⟩ := List.mem_map.mp hkv
    simp [ndarrayOfVar, Variable.selPointLatLon]
  · intro kv hkv
    obtain ⟨kv1, _, rfl⟩ := List.mem_map.mp hkv
    simp [ndarrayOfVar]
  · intro kv hkv
    obtain ⟨kv1, _, rfl⟩ := List.mem_map.mp hkv
    simp [ndarrayOfVar]

/-- C7 (witness): the axis-name presence theorem instantiated on the small
demo dataset and concrete queries. -/
theorem C7_witness :
    (∃ cov, get_grid_coverage demoDS = .ok cov ∧
      ∀ kv ∈ cov.ranges, kv.2.axis_names = some ["t", "y", "x"] ∧
        kv.2.shape.length = 3) ∧
    (∃ cov, get_time_series_at_point 12 104 demoDS = .ok cov ∧
      ∀ kv ∈ cov.ranges, kv.2.axis_names = some ["t"] ∧
        kv.2.shape.length = 1) ∧
    (∃ cov, extract_points demoPts demoDS = .ok cov ∧
      ∀ kv ∈ cov.ranges, kv.2.axis_names = none) ∧
    (∃ cov, extract_trajectory demoTraj demoDS = .ok cov ∧
      ∀ kv ∈ cov.ranges, kv.2.axis_names = none) :=
  C7_axis_names_presence demoDS (by unfold Dataset.WF3; decide) 12 104 demoTraj demoPts
    (by decide) (by decide) (by decide) (by decide) (by decide)

/-- C8: a Points query with one timestamp and n (lat, lon) pairs yields a
MultiPoint coverage whose composite axis holds exactly n (x, y) tuples — the
snapped (lon, lat) of each query point, in input order — and whose t axis
holds exactly one value, the snapped query time. -/
theorem C8_points_composite_axis (ds : Dataset) (pts : Points)
    (hpts : pts.values ≠ []) (hlat : ds.lat ≠ []) (hlon : ds.lon ≠ [])
    (htime : ds.time ≠ []) :
    ∃ cov, extract_points pts ds = .ok cov ∧
      cov.domain.domain_type = .multiPoint ∧
      cov.domain.axes = [("t",
          { values := some [AxisVal.prim (snap ds.time pts.date)] }),
        ("composite",
          { values := some (pts.values.map fun p =>
              AxisVal.tup [snap ds.lon p.2, snap ds.lat p.1]),
            coordinates := some ["x", "y"] })] ∧
      (pts.values.map fun p =>
        AxisVal.tup [snap ds.lon p.2, snap ds.lat p.1]).length =
        pts.values.length ∧
      [AxisVal.prim (snap ds.time pts.date)].length = 1 :=
  ⟨_, extract_points_eq pts ds, rfl, rfl, by simp, rfl⟩

/-- C8 (witness): the MultiPoint composite-axis theorem instantiated on a
concrete two-point query over the small demo dataset. -/
theorem C8_witness :
    ∃ cov, extract_points demoPts demoDS = .ok cov ∧
      cov.domain.domain_type = .multiPoint ∧
      cov.domain.axes = [("t",
          { values := some [AxisVal.prim (snap demoDS.time demoPts.date)] }),
        ("composite",
          { values := some (demoPts.values.map fun p =>
              AxisVal.tup [snap demoDS.lon p.2, snap demoDS.lat p.1]),
            coordinates := some ["x", "y"] })] ∧
      (demoPts.values.map fun p =>
        AxisVal.tup [snap demoDS.lon p.2, snap demoDS.lat p.1]).length =
        demoPts.values.length ∧
      [AxisVal.prim (snap demoDS.time demoPts.date)].length = 1 :=
  C8_points_composite_axis demoDS demoPts (by decide) (by decide) (by decide)
    (by decide)

/-- C9: the Schema Validator performs the six structural checks in the
stated order — axis values non-empty, bounds length twice the values length
when bounds is present, domain-kind-specific axis presence, shape/axis-name
length match when axis names are present, shape product equal to values
length for every Range, and parameter/range/requested key-set equality —
accepting exactly the coverages satisfying all six and rejecting any other
coverage at its first violated check with the error naming that invariant. -/
theorem C9_validator_ordered_checks (cov : Coverage) (req : List String) :
    (validateCoverage cov req = .ok () ↔
      (checkAxisValues cov ∧ checkBounds cov ∧ checkDomainAxes cov ∧
       checkAxisNames cov ∧ checkShapeValues cov ∧ checkKeySets cov req)) ∧
    (validateCoverage cov req = .error .axisValuesEmpty ↔
      ¬checkAxisValues cov) ∧
    (validateCoverage cov req = .error .boundsLength ↔
      (checkAxisValues cov ∧ ¬checkBounds cov)) ∧
    (validateCoverage cov req = .error .missingAxis ↔
      (checkAxisValues cov ∧ checkBounds cov ∧ ¬checkDomainAxes cov)) ∧
    (validateCoverage cov req = .error .axisNamesLength ↔
      (checkAxisValues cov ∧ checkBounds cov ∧ checkDomainAxes cov ∧
       ¬checkAxisNames cov)) ∧
    (validateCoverage cov req = .error .shapeValuesMismatch ↔
      (checkAxisValues cov ∧ checkBounds cov ∧ checkDomainAxes cov ∧
       checkAxisNames cov ∧ ¬checkShapeValues cov)) ∧
    (validateCoverage cov req = .error .keySetMismatch ↔
      (checkAxisValues cov ∧ checkBounds cov ∧ checkDomainAxes cov ∧
       checkAxisNames cov ∧ checkShapeValues cov ∧
       ¬checkKeySets cov req)) := by
  unfold validateCoverage
  by_cases h1 : checkAxisValues cov <;>
  by_cases h2 : checkBounds cov <;>
  by_cases h3 : checkDomainAxes cov <;>
  by_cases h4 : checkAxisNames cov <;>
  by_cases h5 : checkShapeValues cov <;>
  by_cases h6 : checkKeySets cov req <;>
  simp [h1, h2, h3, h4, h5, h6]

/-- C9 (witness): the ordered-check characterisation instantiated on a small
well-formed Grid coverage, accepted by the validator. -/
theorem C9_witness : validateCoverage demoCov ["air"] = .ok () :=
  (C9_validator_ordered_checks demoCov ["air"]).1.mpr (by decide)

end EsmVfc
